import Mathlib

set_option autoImplicit false

/-!
Shallow embedding of the session lifecycle and command-execution engine of the
playwright-server repository (src/services/session.ts, src/services/command.ts,
src/services/proxy.ts, src/services/recording.ts, src/utils/ttl.ts and the
routes in src/routes), together with theorems settling the frozen claims about
its specification. External collaborators (the browser automation library, the
filesystem, the wall clock, the WHATWG URL parser) are passed in as explicit
oracle arguments; everything the repository itself computes is translated
directly from the source.
-/

namespace PlaywrightServer

/-- Leading-match test on character lists: does `s` start with `pat`? -/
def startsWithList : List Char → List Char → Bool
  | _, [] => true
  | [], _ :: _ => false
  | c :: cs, p :: ps => c = p && startsWithList cs ps

/-- Infix test on character lists. -/
def hasInfixList : List Char → List Char → Bool
  | [], pat => pat.isEmpty
  | c :: cs, pat => startsWithList (c :: cs) pat || hasInfixList cs pat

/-- Substring test: does `s` contain `pat`? Mirrors JavaScript String.includes,
used by the error classification in executeCommand. -/
def containsSub (s pat : String) : Bool :=
  hasInfixList s.data pat.data

/-- Emptiness test on a string, through its character list. -/
def strIsEmpty (s : String) : Bool :=
  s.data.isEmpty

/-- Trailing-match test: does `s` end with `pat`? Mirrors JavaScript
String.endsWith. -/
def strEndsWith (s pat : String) : Bool :=
  startsWithList s.data.reverse pat.data.reverse

/-- Whitespace characters removed by JavaScript String.trim. -/
def isWhitespaceChar (c : Char) : Bool :=
  c = ' ' || c = '\t' || c = '\n' || c = '\r'

/-- JavaScript String.trim: strip whitespace from both ends. -/
def strTrim (s : String) : String :=
  String.mk (((s.data.dropWhile isWhitespaceChar).reverse.dropWhile
      isWhitespaceChar).reverse)

/-- Removal of the first occurrence of a character, for the
`protocol.replace(&#58;, empty)` step of parseProxyUrl. -/
def removeFirstChar (pat : Char) : List Char → List Char
  | [] => []
  | c :: cs => if c = pat then cs else c :: removeFirstChar pat cs

/-- JavaScript String.replace with a single-character pattern and an empty
replacement: drop the first occurrence. -/
def stripFirst (s : String) (pat : Char) : String :=
  String.mk (removeFirstChar pat s.data)

/-- JavaScript Map.set on an association list: replace the entry in place if the
key exists, else append a fresh entry. -/
def mapSet {β : Type} (m : List (String × β)) (k : String) (v : β) :
    List (String × β) :=
  if (m.lookup k).isSome then m.map (fun kv => if kv.1 = k then (k, v) else kv)
  else m ++ [(k, v)]

/-- Effective proxy configuration (src/types/proxy.ts ProxyConfig). The protocol
is kept as the raw scheme string extracted from the URL, since
validateProxyConfig rechecks membership in the supported set. -/
structure ProxyConfig where
  protocol : String
  hostname : String
  port : Nat
  username : Option String := none
  password : Option String := none
  bypass : Option String := none
  deriving Repr, DecidableEq

/-- Recording metadata attached to a session at creation
(src/types/recording.ts), present iff recording was requested. -/
structure RecordingMetadata where
  playbackUrl : String
  filePath : String
  startedAt : Nat
  deriving Repr, DecidableEq

/-- Session record (src/types/session.ts SessionData). Timestamps are
milliseconds since the epoch. `pagesCount` stands for the length of
browserContext.pages() of the external automation context, and `timerDelay` for
the delay the currently armed expiry setTimeout handle was created with. -/
structure SessionData where
  id : String
  ttl : Nat
  createdAt : Nat
  lastActivityAt : Nat
  expiresAt : Nat
  pagesCount : Nat
  timerDelay : Nat
  recordingMetadata : Option RecordingMetadata := none
  proxyConfig : Option ProxyConfig := none
  userDataDir : String
  deriving Repr, DecidableEq

/-- Tracking entry of the recording artifact tracker
(src/services/recording.ts SessionMetadata). -/
structure RecordingEntry where
  sessionId : String
  endTime : Option Nat
  recordingPath : String
  deriving Repr, DecidableEq

/-- Whole-process mutable state: the session registry map and the recording
tracker map, both keyed by session id. -/
structure ServerState where
  sessions : List (String × SessionData)
  recordings : List (String × RecordingEntry)
  deriving Repr, DecidableEq

/-- Error taxonomy of src/types/errors.ts, restricted to the classes the
command-execution engine can raise. -/
inductive CmdError where
  | commandNotFound (command : String)
  | sessionNotFound
  | timeout (message : String)
  | elementNotFound (selector : String)
  | execution (message : String)
  deriving Repr, DecidableEq

/-- Message carried by each error class (constructor bodies in
src/types/errors.ts). -/
def CmdError.message : CmdError → String
  | .commandNotFound c => "Command \x27" ++ c ++ "\x27 is not registered"
  | .sessionNotFound => "Session not found or has expired"
  | .timeout m => m
  | .elementNotFound s => "Element matching selector \x27" ++ s ++ "\x27 not found"
  | .execution m => m

/-- The names registered in commandRegistry
(src/services/command.ts lines 21-287). The handler bodies are one-line
pass-throughs to the external automation library and are supplied as oracles. -/
def commandRegistryNames : List String :=
  ["navigate", "goto", "reload", "click", "type", "fill", "press",
   "textContent", "getAttribute", "screenshot", "content", "waitForSelector",
   "evaluate", "setExtraHTTPHeaders", "cookies", "setCookies", "wait",
   "goBack", "goForward", "waitForLoadState", "isVisible", "isHidden",
   "isEnabled", "isDisabled", "isEditable", "isChecked", "hover", "dblclick",
   "dragAndDrop", "selectOption", "check", "uncheck", "innerHTML", "innerText",
   "inputValue", "title", "url", "bringToFront", "focus", "blur",
   "scrollIntoViewIfNeeded"]

/-- Arguments of executeCommand (src/services/command.ts ExecuteCommandParams);
the free-form options bag is forwarded to the external handler unchanged and is
not inspected by the engine, so it is omitted. -/
structure ExecuteCommandParams where
  sessionId : String
  command : String
  selector : Option String := none
  deriving Repr, DecidableEq

/-- Error re-classification of the catch block in executeCommand
(src/services/command.ts lines 326-338): a raw underlying failure message is
mapped to TimeoutError, ElementNotFoundError, or the catch-all ExecutionError.
An empty message is falsy in JavaScript, so both substring branches are skipped
and ExecutionError gets the fallback text. -/
def classifyHandlerError (message : String) (selector : Option String) :
    CmdError :=
  if !strIsEmpty message && containsSub message "Timeout" then
    CmdError.timeout message
  else if !strIsEmpty message &&
      (containsSub message "waiting for selector" ||
       containsSub message "not found") then
    CmdError.elementNotFound (selector.getD "unknown")
  else
    CmdError.execution (if strIsEmpty message then "Command execution failed" else message)

/-- getSession (src/services/session.ts lines 296-302): lookup in the registry
map, raising SessionNotFoundError when absent. -/
def getSession (sessions : List (String × SessionData)) (sessionId : String) :
    Except CmdError SessionData :=
  match sessions.lookup sessionId with
  | some s => Except.ok s
  | none => Except.error CmdError.sessionNotFound

/-- executeCommand (src/services/command.ts lines 296-339). `handlerOutcome` is
the outcome of awaiting the registered handler against the external page: ok
carries the returned payload (`none` standing for a null return), error carries
the raw underlying error message, which the catch block classifies. The source
performs no registry mutation on this path. -/
def executeCommand {α : Type} (sessions : List (String × SessionData))
    (handlerOutcome : Except String (Option α)) (p : ExecuteCommandParams) :
    Except CmdError (Option α) :=
  if p.command ∈ commandRegistryNames then
    match getSession sessions p.sessionId with
    | Except.error e => Except.error e
    | Except.ok session =>
      if session.pagesCount = 0 then
        Except.error (CmdError.execution "No active page in browser context")
      else
        match handlerOutcome with
        | Except.ok v => Except.ok v
        | Except.error msg => Except.error (classifyHandlerError msg p.selector)
  else Except.error (CmdError.commandNotFound p.command)

/-- One unit of work from the wire (src/types/command.ts CommandRequest); the
free-form options bag is not semantically inspected by the engine and is
omitted from the embedding. -/
structure CommandRequest where
  command : String
  selector : Option String := none
  deriving Repr, DecidableEq

/-- Status tag of one command execution result. -/
inductive CmdStatus where
  | success
  | error
  deriving Repr, DecidableEq

/-- Per-command entry of a sequence response
(src/types/command.ts CommandExecutionResult). -/
structure CommandExecutionResult (α : Type) where
  index : Nat
  command : String
  status : CmdStatus
  result : Option α
  durationMs : Nat
  error : Option String := none
  selector : Option String := none
  deriving Repr, DecidableEq

/-- Sequence response (src/types/command.ts SequenceExecutionResponse). -/
structure SequenceExecutionResponse (α : Type) where
  results : List (CommandExecutionResult α)
  completedCount : Nat
  totalCount : Nat
  halted : Bool
  executedAt : Nat
  deriving Repr, DecidableEq

/-- The for-loop of executeCommandSequence
(src/services/command.ts lines 361-468): runs executeCommand per entry, pushing
a success result and continuing, or pushing an error result and halting.
`handlerOutcomes` gives, per index, the raw outcome of the registered handler at
that step; `dur` gives the measured elapsed duration per index. Returns the
accumulated result list together with the halted flag. -/
def execSeqLoop {α : Type} (sessions : List (String × SessionData))
    (handlerOutcomes : Nat → Except String (Option α)) (dur : Nat → Nat)
    (sessionId : String) :
    List CommandRequest → Nat → List (CommandExecutionResult α) × Bool
  | [], _ => ([], false)
  | cmd :: rest, index =>
    match executeCommand sessions (handlerOutcomes index)
        { sessionId := sessionId, command := cmd.command,
          selector := cmd.selector } with
    | Except.ok v =>
      let r : CommandExecutionResult α :=
        { index := index, command := cmd.command, status := CmdStatus.success,
          result := v, durationMs := dur index, selector := cmd.selector }
      let next := execSeqLoop sessions handlerOutcomes dur sessionId rest (index + 1)
      (r :: next.1, next.2)
    | Except.error e =>
      let msg := if strIsEmpty (CmdError.message e) then "Command execution failed"
                 else CmdError.message e
      ([{ index := index, command := cmd.command, status := CmdStatus.error,
          result := none, durationMs := dur index, error := some msg,
          selector := cmd.selector }], true)

/-- executeCommandSequence (src/services/command.ts lines 345-477): resolves the
session (the getSession call at line 357 raises SessionNotFoundError when
absent), runs the halt-on-first-failure loop, and assembles the
SequenceExecutionResponse; completedCount is the count of success entries and
totalCount the original request count. `executedAt` is the wall-clock reading
taken at entry. -/
def executeCommandSequence {α : Type} (sessions : List (String × SessionData))
    (handlerOutcomes : Nat → Except String (Option α)) (dur : Nat → Nat)
    (executedAt : Nat) (sessionId : String) (commands : List CommandRequest) :
    Except CmdError (SequenceExecutionResponse α) :=
  match getSession sessions sessionId with
  | Except.error e => Except.error e
  | Except.ok _ =>
    let p := execSeqLoop sessions handlerOutcomes dur sessionId commands 0
    Except.ok
      { results := p.1
        completedCount := (p.1.filter (fun r => r.status == CmdStatus.success)).length
        totalCount := commands.length
        halted := p.2
        executedAt := executedAt }

/-- Array-body validation of the sequence route
(src/routes/command.ts lines 20-32): an empty array is rejected before the
executor runs, and each entry must carry a non-empty command string
(a missing command field is falsy in JavaScript, like the empty string). -/
def validateSequenceBody (body : List CommandRequest) : Except String Unit :=
  if body.length = 0 then Except.error "Command array cannot be empty"
  else
    match body.findIdx? (fun c => strIsEmpty c.command) with
    | some i => Except.error ("Command at index " ++ toString i ++ " is missing or invalid")
    | none => Except.ok ()

/-- registerRecordingSession (src/services/recording.ts lines 13-19): record a
pending artifact keyed by session id, end-time unset. -/
def registerRecordingSession (recordings : List (String × RecordingEntry))
    (sessionId recordingPath : String) : List (String × RecordingEntry) :=
  mapSet recordings sessionId
    { sessionId := sessionId, endTime := none, recordingPath := recordingPath }

/-- markSessionEnded (src/services/recording.ts lines 21-26): set the end-time
of the tracked artifact to now; a no-op when the id is not tracked. -/
def markSessionEnded (recordings : List (String × RecordingEntry))
    (sessionId : String) (now : Nat) : List (String × RecordingEntry) :=
  match recordings.lookup sessionId with
  | some e => mapSet recordings sessionId { e with endTime := some now }
  | none => recordings

/-- Errors createSession can raise before reaching the external collaborators
(src/types/errors.ts MaxSessionsReachedError). -/
inductive CreateError where
  | maxSessionsReached (limit : Nat)
  deriving Repr, DecidableEq

/-- Side effects of createSession that are visible outside the registry state:
launching the persistent browser context (which creates the user-data scratch
directory on disk). -/
inductive CreateEffect where
  | launchContext (userDataDir : String)
  deriving Repr, DecidableEq

/-- Options accepted by createSession
(src/services/session.ts CreateSessionOptions); videoSize only parameterizes
the external capture target and is omitted. -/
structure CreateSessionOptions where
  ttl : Nat
  recording : Bool := false
  proxy : Option ProxyConfig := none
  deriving Repr, DecidableEq

/-- Effective-proxy precedence (src/services/session.ts line 46:
`options.proxy || getGlobalProxy()`): the session-specific override wins when
present, else the global default, else no proxy. -/
def resolveEffectiveProxy (sessionOverride globalDefault : Option ProxyConfig) :
    Option ProxyConfig :=
  match sessionOverride with
  | some p => some p
  | none => globalDefault

/-- createSession (src/services/session.ts lines 32-210). Oracles: `sessionId`
is the freshly generated uuid, `now` the wall clock at entry, `globalProxy` the
value of getGlobalProxy(), and `contextPages` the number of pages the launched
persistent context reports. The capacity check at lines 34-36 runs before any
other computation; past it, the session record is assembled exactly as in the
source (expiresAt = now + ttl, an expiry timer armed for ttl, recording
registered with the tracker when requested) and inserted into the registry. -/
def createSession (maxSessions : Nat) (st : ServerState)
    (opts : CreateSessionOptions) (sessionId : String) (now : Nat)
    (globalProxy : Option ProxyConfig) (contextPages : Nat) :
    Except CreateError SessionData × ServerState × List CreateEffect :=
  if st.sessions.length ≥ maxSessions then
    (Except.error (CreateError.maxSessionsReached maxSessions), st, [])
  else
    let expiresAt := now + opts.ttl
    let userDataDir := "./user-data/" ++ sessionId
    let effectiveProxy := resolveEffectiveProxy opts.proxy globalProxy
    let recordingPath := "./recordings/" ++ sessionId
    let recordingMetadata : Option RecordingMetadata :=
      if opts.recording then
        some { playbackUrl := "/recordings/" ++ sessionId ++ "/video.webm",
               filePath := recordingPath, startedAt := now }
      else none
    let recordings :=
      if opts.recording then
        registerRecordingSession st.recordings sessionId recordingPath
      else st.recordings
    let sessionData : SessionData :=
      { id := sessionId, ttl := opts.ttl, createdAt := now,
        lastActivityAt := now, expiresAt := expiresAt,
        pagesCount := contextPages, timerDelay := opts.ttl,
        recordingMetadata := recordingMetadata, proxyConfig := effectiveProxy,
        userDataDir := userDataDir }
    (Except.ok sessionData,
     { sessions := st.sessions ++ [(sessionId, sessionData)],
       recordings := recordings },
     [CreateEffect.launchContext userDataDir])

/-- resetSessionTTL (src/utils/ttl.ts lines 4-17): clear the old expiry timer,
set lastActivityAt to now, recompute expiresAt, and arm a new timer of length
ttl. This function is defined in the repository but has no caller in the
command-execution path. -/
def resetSessionTTL (s : SessionData) (now : Nat) : SessionData :=
  { s with lastActivityAt := now, expiresAt := now + s.ttl, timerDelay := s.ttl }

/-- Externally visible effects performed by cleanupSession, in program order. -/
inductive CleanupEffect where
  | cancelTimer (sessionId : String)
  | closeContext (sessionId : String)
  | logCloseError (sessionId : String)
  | renameArtifact (sourcePath destPath : String)
  | logFinalizeError (sessionId : String)
  | notifyEnded (sessionId : String)
  | removeDir (path : String)
  | logRemoveDirError (sessionId : String)
  | removeFromRegistry (sessionId : String)
  deriving Repr, DecidableEq

/-- Filesystem and browser oracles consumed by one cleanupSession call:
whether browserContext.close() succeeds, the outcome of fs.readdir on the
recording directory, whether fs.rename succeeds, whether fs.rm on the user-data
directory succeeds, and the wall clock used by markSessionEnded. -/
structure CleanupOracles where
  closeOk : Bool
  readdirResult : Except String (List String)
  renameOk : Bool
  rmOk : Bool
  now : Nat
  deriving Repr

/-- The recording-finalization block of cleanupSession
(src/services/session.ts lines 234-264): list the recording directory, find the
first .webm file, and rename it to video.webm unless it already has that name;
any failure in the block is caught and logged, never propagated. -/
def finalizeRecordingEffects (o : CleanupOracles) (recordingDir sessionId : String) :
    List CleanupEffect :=
  match o.readdirResult with
  | Except.error _ => [CleanupEffect.logFinalizeError sessionId]
  | Except.ok files =>
    match files.find? (fun f => strEndsWith f ".webm") with
    | some webmFile =>
      if webmFile ≠ "video.webm" then
        CleanupEffect.renameArtifact (recordingDir ++ "/" ++ webmFile)
            (recordingDir ++ "/video.webm")
          :: (if o.renameOk then [] else [CleanupEffect.logFinalizeError sessionId])
      else []
    | none => []

/-- cleanupSession (src/services/session.ts lines 212-294). When the id is
absent from the registry the call returns immediately with no effect. Otherwise,
in order: clear the expiry timer; close the browser context (failure logged,
not propagated); if recording was enabled, finalize the artifact after the close
completes and notify the tracker via markSessionEnded; recursively delete the
user-data directory (failure logged, not propagated); remove the entry from the
registry map. Returns the new state and the ordered effect trace. -/
def cleanupSession (st : ServerState) (o : CleanupOracles) (sessionId : String) :
    ServerState × List CleanupEffect :=
  match st.sessions.lookup sessionId with
  | none => (st, [])
  | some session =>
    let closePart : List CleanupEffect :=
      CleanupEffect.closeContext sessionId
        :: (if o.closeOk then [] else [CleanupEffect.logCloseError sessionId])
    let recordingPart : List CleanupEffect :=
      match session.recordingMetadata with
      | some md =>
        finalizeRecordingEffects o md.filePath sessionId
          ++ [CleanupEffect.notifyEnded sessionId]
      | none => []
    let recordings :=
      match session.recordingMetadata with
      | some _ => markSessionEnded st.recordings sessionId o.now
      | none => st.recordings
    let rmPart : List CleanupEffect :=
      CleanupEffect.removeDir session.userDataDir
        :: (if o.rmOk then [] else [CleanupEffect.logRemoveDirError sessionId])
    ({ sessions := st.sessions.filter (fun kv => kv.1 ≠ sessionId),
       recordings := recordings },
     CleanupEffect.cancelTimer sessionId
       :: closePart ++ recordingPart ++ rmPart
       ++ [CleanupEffect.removeFromRegistry sessionId])

/-- ONE_HOUR_MS (src/services/recording.ts line 4): the fixed artifact
retention window. -/
def ONE_HOUR_MS : Nat := 60 * 60 * 1000

/-- The sweep condition of cleanupOldRecordings
(src/services/recording.ts line 36): the entry has an end-time and
`now - endTime > ONE_HOUR_MS`; over integers this is `endTime + ONE_HOUR_MS < now`. -/
def recordingDue (now : Nat) (e : RecordingEntry) : Bool :=
  match e.endTime with
  | some t => t + ONE_HOUR_MS < now
  | none => false

/-- cleanupOldRecordings (src/services/recording.ts lines 30-56): one sweep run.
For every tracked artifact whose end-time is more than the retention window in
the past, recursively delete its storage and drop the tracking entry; a failing
deletion is caught and logged, and the entry then stays tracked. `rmOk` is the
filesystem oracle; the second component collects the paths on which fs.rm was
attempted, in iteration order. -/
def cleanupOldRecordings (recordings : List (String × RecordingEntry))
    (now : Nat) (rmOk : String → Bool) :
    List (String × RecordingEntry) × List String :=
  match recordings with
  | [] => ([], [])
  | (k, e) :: rest =>
    let next := cleanupOldRecordings rest now rmOk
    if recordingDue now e then
      if rmOk e.recordingPath then (next.1, e.recordingPath :: next.2)
      else ((k, e) :: next.1, e.recordingPath :: next.2)
    else ((k, e) :: next.1, next.2)

/-- Components of a successfully constructed WHATWG URL object, as consumed by
parseProxyUrl. The URL constructor is an external collaborator; its output obeys
these invariants: `protocol` ends in a colon, `port` is empty (absent, or equal
to the default port of a special scheme) or a decimal number between 0 and
65535, and `username`/`password` are empty when absent. -/
structure URLParts where
  protocol : String
  hostname : String
  port : String
  username : String := ""
  password : String := ""
  deriving Repr, DecidableEq

/-- SUPPORTED_PROTOCOLS (src/services/proxy.ts line 5). -/
def SUPPORTED_PROTOCOLS : List String := ["http", "https", "socks5"]

/-- getDefaultPort (src/services/proxy.ts lines 7-18): scheme-specific default
ports, falling back to 80. -/
def getDefaultPort (protocol : String) : Nat :=
  if protocol = "http" then 80
  else if protocol = "https" then 443
  else if protocol = "socks5" then 1080
  else 80

/-- parseInt on the port component of a URL; WHATWG URL guarantees a decimal
digit string there, on which parseInt is total. -/
def parsePort (s : String) : Nat :=
  s.data.foldl (fun acc c => acc * 10 + (c.toNat - 48)) 0

/-- ProxyValidationError payloads raised by the proxy resolver
(src/types/errors.ts ProxyValidationError carries a message plus a list of
detail strings). -/
inductive ProxyValidationErr where
  | invalidUrl
  | unsupportedProtocol (protocol : String)
  | hostnameRequired
  | invalidConfig (details : List String)
  | serverRequired
  deriving Repr, DecidableEq

/-- parseProxyUrl (src/services/proxy.ts lines 26-65). The input is the result
of `new URL(proxyUrlString)`: `none` when the constructor threw. The scheme is
the protocol with the colon removed; an unsupported scheme or an empty hostname
raises ProxyValidationError; an absent port takes the scheme-specific default;
an empty username or password component is falsy and becomes undefined. -/
def parseProxyUrl (parsed : Option URLParts) :
    Except ProxyValidationErr ProxyConfig :=
  match parsed with
  | none => Except.error ProxyValidationErr.invalidUrl
  | some u =>
    let protocol := stripFirst u.protocol ':'
    if protocol ∈ SUPPORTED_PROTOCOLS then
      let port := if u.port ≠ "" then parsePort u.port else getDefaultPort protocol
      if u.hostname ≠ "" then
        Except.ok
          { protocol := protocol, hostname := u.hostname, port := port,
            username := if u.username = "" then none else some u.username,
            password := if u.password = "" then none else some u.password,
            bypass := none }
      else Except.error ProxyValidationErr.hostnameRequired
    else Except.error (ProxyValidationErr.unsupportedProtocol protocol)

/-- validateProxyConfig (src/services/proxy.ts lines 93-124): collects the
validation failures of a parsed configuration, in source order. The
authentication rule is both-or-neither, where a credential counts as provided
when it is defined and non-empty. -/
def validateProxyConfig (config : ProxyConfig) : List String :=
  (if config.protocol ∈ SUPPORTED_PROTOCOLS then []
   else ["Unsupported protocol: " ++ config.protocol ++
         ". Supported protocols: http, https, socks5"])
  ++ (if config.hostname = "" ∨ strTrim config.hostname = "" then
        ["Hostname is required and cannot be empty"]
      else [])
  ++ (if 1 ≤ config.port ∧ config.port ≤ 65535 then []
      else ["Port must be between 1 and 65535, got: " ++ toString config.port])
  ++ (let hasUsername : Bool := config.username.getD "" ≠ ""
      let hasPassword : Bool := config.password.getD "" ≠ ""
      if hasUsername ≠ hasPassword then
        ["Proxy authentication incomplete: username and password must both be provided or both be omitted"]
      else [])

/-- validateProxyConfigOrThrow (src/services/proxy.ts lines 129-134). -/
def validateProxyConfigOrThrow (config : ProxyConfig) :
    Except ProxyValidationErr Unit :=
  match validateProxyConfig config with
  | [] => Except.ok ()
  | errors => Except.error (ProxyValidationErr.invalidConfig errors)

/-- Proxy configuration of a session-creation request
(src/types/proxy.ts ProxyRequestConfig). `server` is the raw server URL string
and `serverParsed` the outcome of `new URL(server)` supplied by the external
URL collaborator. -/
structure ProxyRequestConfig where
  server : String
  serverParsed : Option URLParts
  username : Option String := none
  password : Option String := none
  bypass : Option String := none
  deriving Repr, DecidableEq

/-- parseProxyRequest (src/services/proxy.ts lines 71-87): parse the server URL,
then override the credentials when either separate field is present and attach
the bypass list when present. -/
def parseProxyRequest (request : ProxyRequestConfig) :
    Except ProxyValidationErr ProxyConfig :=
  match parseProxyUrl request.serverParsed with
  | Except.error e => Except.error e
  | Except.ok config =>
    let config :=
      if request.username.isSome ∨ request.password.isSome then
        { config with username := request.username, password := request.password }
      else config
    let config :=
      match request.bypass with
      | some b => { config with bypass := some b }
      | none => config
    Except.ok config

/-- Errors surfaced by the session-creation route. -/
inductive RouteError where
  | validation (message : String)
  | proxy (e : ProxyValidationErr)
  | capacity (limit : Nat)
  deriving Repr, DecidableEq

/-- The POST /sessions handler (src/routes/session.ts lines 16-83): validate
the TTL bounds, then — when a proxy is supplied — require the server field,
parse and validate the proxy configuration, and only then call createSession.
Every validation failure is raised before createSession runs, so the state is
returned unchanged on those paths. (`ttl = 0` models the falsy missing-ttl
check.) -/
def handleCreateSessionRoute (maxSessions : Nat) (st : ServerState)
    (ttl : Nat) (recording : Bool) (proxy : Option ProxyRequestConfig)
    (sessionId : String) (now : Nat) (globalProxy : Option ProxyConfig)
    (contextPages : Nat) :
    Except RouteError SessionData × ServerState × List CreateEffect :=
  if ttl = 0 then
    (Except.error (RouteError.validation "TTL is required and must be a number"), st, [])
  else if ttl < 60000 ∨ ttl > 14400000 then
    (Except.error (RouteError.validation
      "TTL must be between 60000ms (1 minute) and 14400000ms (4 hours)"), st, [])
  else
    let proxyParsed : Except RouteError (Option ProxyConfig) :=
      match proxy with
      | none => Except.ok none
      | some p =>
        if p.server = "" then
          Except.error (RouteError.proxy ProxyValidationErr.serverRequired)
        else
          match parseProxyRequest p with
          | Except.error e => Except.error (RouteError.proxy e)
          | Except.ok config =>
            match validateProxyConfigOrThrow config with
            | Except.error e => Except.error (RouteError.proxy e)
            | Except.ok _ => Except.ok (some config)
    match proxyParsed with
    | Except.error e => (Except.error e, st, [])
    | Except.ok proxyConfig =>
      match createSession maxSessions st
          { ttl := ttl, recording := recording, proxy := proxyConfig }
          sessionId now globalProxy contextPages with
      | (Except.error (CreateError.maxSessionsReached limit), st2, eff) =>
        (Except.error (RouteError.capacity limit), st2, eff)
      | (Except.ok sess, st2, eff) => (Except.ok sess, st2, eff)

/-- The single-command path of the POST /sessions/:id/command route
(src/routes/command.ts lines 47-118) together with executeCommand: the command
is validated and executed, and the outcome returned. Neither the route nor
executeCommand mutates the registry on this path — in particular no
resetSessionTTL call and no cleanupSession call appear in the source — so the
state comes back unchanged for every outcome. -/
def handleSingleCommand {α : Type} (st : ServerState)
    (handlerOutcome : Except String (Option α)) (p : ExecuteCommandParams) :
    Except CmdError (Option α) × ServerState :=
  (executeCommand st.sessions handlerOutcome p, st)

/-- The proxy-configuration pipeline of the session-creation route when only a
server URL is supplied (src/routes/session.ts lines 44-49 with no separate
username/password/bypass fields): parseProxyUrl followed by
validateProxyConfigOrThrow, returning the validated configuration. -/
def parseAndValidate (parsed : Option URLParts) :
    Except ProxyValidationErr ProxyConfig :=
  match parseProxyUrl parsed with
  | Except.error e => Except.error e
  | Except.ok c =>
    match validateProxyConfigOrThrow c with
    | Except.error e => Except.error e
    | Except.ok _ => Except.ok c

/-- The configuration parseProxyUrl assembles once its scheme and hostname
checks pass (src/services/proxy.ts lines 57-64). -/
def parsedConfig (u : URLParts) : ProxyConfig :=
  { protocol := stripFirst u.protocol ':',
    hostname := u.hostname,
    port := if u.port ≠ "" then parsePort u.port
            else getDefaultPort (stripFirst u.protocol ':'),
    username := if u.username = "" then none else some u.username,
    password := if u.password = "" then none else some u.password,
    bypass := none }

/-- Invariants the WHATWG URL constructor guarantees for its output: the port
component is empty or a digit string whose numeric value is at most 65535, and
the hostname contains no whitespace, so a non-empty hostname does not trim to
the empty string. -/
def WellFormedURL (u : URLParts) : Prop :=
  (u.port = "" ∨ (u.port ≠ "" ∧ parsePort u.port ≤ 65535))
  ∧ (u.hostname ≠ "" → strTrim u.hostname ≠ "")

/-!
Concrete inputs used to exercise the theorems below on explicit values.
-/

/-- The URL parts of the string http&#58;//host&#58;0 as the WHATWG constructor
produces them: zero is not the default port of http, so it is kept verbatim. -/
def portZeroURL : URLParts :=
  { protocol := "http:", hostname := "host", port := "0" }

/-- The URL parts of http&#58;//user@host&#58;8080: a username without a
password. -/
def userOnlyURL : URLParts :=
  { protocol := "http:", hostname := "host", port := "8080",
    username := "user" }

/-- The URL parts of socks5&#58;//host: no explicit port. -/
def defaultPortURL : URLParts :=
  { protocol := "socks5:", hostname := "host", port := "" }

/-- A concrete live session. -/
def demoSession : SessionData :=
  { id := "s1", ttl := 60000, createdAt := 0, lastActivityAt := 0,
    expiresAt := 60000, pagesCount := 1, timerDelay := 60000,
    userDataDir := "./user-data/s1" }

/-- A registry holding the one concrete session. -/
def demoSessions : List (String × SessionData) := [("s1", demoSession)]

/-- A concrete three-command request list: a succeeding navigate, a failing
click, and an extract that must never be attempted. -/
def demoCommands : List CommandRequest :=
  [{ command := "navigate" },
   { command := "click", selector := some "#missing" },
   { command := "textContent", selector := some "h1" }]

/-- Handler oracle for the demo run: the first step succeeds, every later step
fails with an element-missing message. -/
def demoOutcomes : Nat → Except String (Option Nat) :=
  fun i => if i = 0 then Except.ok none else Except.error "element not found"

/-- The response the engine computes on the demo inputs: one success entry, one
trailing error entry, nothing for the third request. -/
def demoResp : SequenceExecutionResponse Nat :=
  { results :=
      [{ index := 0, command := "navigate", status := CmdStatus.success,
         result := none, durationMs := 2 },
       { index := 1, command := "click", status := CmdStatus.error,
         result := none, durationMs := 2,
         error := some "Element matching selector \x27#missing\x27 not found",
         selector := some "#missing" }],
    completedCount := 1, totalCount := 3, halted := true, executedAt := 99 }

/-- Registry state holding just the demo session. -/
def demoState : ServerState := { sessions := demoSessions, recordings := [] }

/-- The empty initial state. -/
def emptyState : ServerState := { sessions := [], recordings := [] }

/-- Creation options with the demo TTL and no recording or proxy. -/
def demoOpts : CreateSessionOptions := { ttl := 60000 }

/-- A concrete global proxy configuration. -/
def demoProxy : ProxyConfig :=
  { protocol := "http", hostname := "proxy.example", port := 8080 }

/-- The demo session as created under the demo global proxy. -/
def demoProxySession : SessionData :=
  { demoSession with proxyConfig := some demoProxy }

/-- Recording metadata of the demo recording session. -/
def demoRecMetadata : RecordingMetadata :=
  { playbackUrl := "/recordings/s1/video.webm", filePath := "./recordings/s1",
    startedAt := 0 }

/-- The demo session with recording enabled. -/
def demoRecSession : SessionData :=
  { demoSession with recordingMetadata := some demoRecMetadata }

/-- A server state holding the recording session and its tracker entry. -/
def demoRecState : ServerState :=
  { sessions := [("s1", demoRecSession)],
    recordings := [("s1", { sessionId := "s1", endTime := none,
                            recordingPath := "./recordings/s1" })] }

/-- Cleanup oracles exercising the failure-tolerant paths: context close fails,
the directory listing succeeds with one raw capture file, the rename succeeds,
and the user-data deletion fails. -/
def demoCleanupOracles : CleanupOracles :=
  { closeOk := false, readdirResult := Except.ok ["abc.webm"],
    renameOk := true, rmOk := false, now := 42 }

/-- Boolean comparison of an error status against success evaluates to false. -/
@[simp] theorem beq_error_success : (CmdStatus.error == CmdStatus.success) = false := by decide

/-- Boolean comparison of success against itself evaluates to true. -/
@[simp] theorem beq_success_success : (CmdStatus.success == CmdStatus.success) = true := by decide

section SequenceLemmas

variable {α : Type} (sessions : List (String × SessionData))
variable (f : Nat → Except String (Option α)) (dur : Nat → Nat) (sid : String)

/-- The result indices produced by the sequence loop count up from the start
index. -/
theorem execSeqLoop_map_index :
    ∀ (cmds : List CommandRequest) (i : Nat)
      (rs : List (CommandExecutionResult α)) (b : Bool),
      execSeqLoop sessions f dur sid cmds i = (rs, b) →
      rs.map (fun r => r.index) = List.range' i rs.length := by
  intro cmds
  induction cmds with
  | nil =>
    intro i rs b h
    simp only [execSeqLoop] at h
    cases h
    simp
  | cons cmd rest ih =>
    intro i rs b h
    simp only [execSeqLoop] at h
    cases hx : executeCommand sessions (f i)
        { sessionId := sid, command := cmd.command, selector := cmd.selector } with
    | error e =>
      rw [hx] at h
      cases h
      simp [List.range'_succ]
    | ok v =>
      rw [hx] at h
      rcases hq : execSeqLoop sessions f dur sid rest (i + 1) with ⟨rs2, b2⟩
      rw [hq] at h
      cases h
      have := ih (i + 1) rs2 b2 hq
      simp only [List.map_cons, List.length_cons, this]
      rw [List.range'_succ]

/-- The commands recorded in the results are the commands of the attempted
requests, position by position. -/
theorem execSeqLoop_map_command :
    ∀ (cmds : List CommandRequest) (i : Nat)
      (rs : List (CommandExecutionResult α)) (b : Bool),
      execSeqLoop sessions f dur sid cmds i = (rs, b) →
      rs.map (fun r => r.command) = (cmds.take rs.length).map (fun c => c.command) := by
  intro cmds
  induction cmds with
  | nil =>
    intro i rs b h
    simp only [execSeqLoop] at h
    cases h
    simp
  | cons cmd rest ih =>
    intro i rs b h
    simp only [execSeqLoop] at h
    cases hx : executeCommand sessions (f i)
        { sessionId := sid, command := cmd.command, selector := cmd.selector } with
    | error e =>
      rw [hx] at h
      cases h
      simp
    | ok v =>
      rw [hx] at h
      rcases hq : execSeqLoop sessions f dur sid rest (i + 1) with ⟨rs2, b2⟩
      rw [hq] at h
      cases h
      have := ih (i + 1) rs2 b2 hq
      simp [this]

/-- The selectors recorded in the results are the selectors of the attempted
requests, position by position. -/
theorem execSeqLoop_map_selector :
    ∀ (cmds : List CommandRequest) (i : Nat)
      (rs : List (CommandExecutionResult α)) (b : Bool),
      execSeqLoop sessions f dur sid cmds i = (rs, b) →
      rs.map (fun r => r.selector) = (cmds.take rs.length).map (fun c => c.selector) := by
  intro cmds
  induction cmds with
  | nil =>
    intro i rs b h
    simp only [execSeqLoop] at h
    cases h
    simp
  | cons cmd rest ih =>
    intro i rs b h
    simp only [execSeqLoop] at h
    cases hx : executeCommand sessions (f i)
        { sessionId := sid, command := cmd.command, selector := cmd.selector } with
    | error e =>
      rw [hx] at h
      cases h
      simp
    | ok v =>
      rw [hx] at h
      rcases hq : execSeqLoop sessions f dur sid rest (i + 1) with ⟨rs2, b2⟩
      rw [hq] at h
      cases h
      have := ih (i + 1) rs2 b2 hq
      simp [this]

/-- Status shape of the loop output: a non-halted run records one success per
request; a halted run records some successes followed by exactly one trailing
error, within the request count. -/
theorem execSeqLoop_status :
    ∀ (cmds : List CommandRequest) (i : Nat)
      (rs : List (CommandExecutionResult α)) (b : Bool),
      execSeqLoop sessions f dur sid cmds i = (rs, b) →
      (b = false → rs.length = cmds.length ∧
        rs.map (fun r => r.status) = List.replicate cmds.length CmdStatus.success)
      ∧ (b = true → rs.length ≤ cmds.length ∧ 0 < rs.length ∧
        rs.map (fun r => r.status)
          = List.replicate (rs.length - 1) CmdStatus.success ++ [CmdStatus.error]) := by
  intro cmds
  induction cmds with
  | nil =>
    intro i rs b h
    simp only [execSeqLoop] at h
    cases h
    simp
  | cons cmd rest ih =>
    intro i rs b h
    simp only [execSeqLoop] at h
    cases hx : executeCommand sessions (f i)
        { sessionId := sid, command := cmd.command, selector := cmd.selector } with
    | error e =>
      rw [hx] at h
      cases h
      constructor
      · intro hfalse
        exact absurd hfalse (by decide)
      · intro _
        refine ⟨Nat.succ_le_succ (Nat.zero_le _), Nat.zero_lt_one, ?_⟩
        simp
    | ok v =>
      rw [hx] at h
      rcases hq : execSeqLoop sessions f dur sid rest (i + 1) with ⟨rs2, b2⟩
      rw [hq] at h
      cases h
      have IH := ih (i + 1) rs2 b2 hq
      constructor
      · intro hfalse
        obtain ⟨hlen, hmap⟩ := IH.1 hfalse
        constructor
        · simp [hlen]
        · simp only [List.map_cons, hmap, hlen, List.length_cons]
          rw [List.replicate_succ]
      · intro htrue
        obtain ⟨hle, hpos, hmap⟩ := IH.2 htrue
        refine ⟨by simpa using Nat.succ_le_succ hle, Nat.succ_pos _, ?_⟩
        have hlen2 : rs2.length - 1 + 1 = rs2.length := Nat.succ_pred_eq_of_pos hpos
        simp only [List.map_cons, hmap, List.length_cons, Nat.add_sub_cancel]
        rw [← hlen2, List.replicate_succ]
        simp

/-- The number of success entries plus one for a halt equals the number of
entries. -/
theorem execSeqLoop_filter_length :
    ∀ (cmds : List CommandRequest) (i : Nat)
      (rs : List (CommandExecutionResult α)) (b : Bool),
      execSeqLoop sessions f dur sid cmds i = (rs, b) →
      (rs.filter (fun r => r.status == CmdStatus.success)).length
        + (if b then 1 else 0) = rs.length := by
  intro cmds
  induction cmds with
  | nil =>
    intro i rs b h
    simp only [execSeqLoop] at h
    cases h
    simp
  | cons cmd rest ih =>
    intro i rs b h
    simp only [execSeqLoop] at h
    cases hx : executeCommand sessions (f i)
        { sessionId := sid, command := cmd.command, selector := cmd.selector } with
    | error e =>
      rw [hx] at h
      cases h
      simp [List.filter_cons]
    | ok v =>
      rw [hx] at h
      rcases hq : execSeqLoop sessions f dur sid rest (i + 1) with ⟨rs2, b2⟩
      rw [hq] at h
      cases h
      have IH := ih (i + 1) rs2 b2 hq
      simp only [List.filter_cons, beq_success_success, if_true, List.length_cons]
      omega

/-- The halted flag is set exactly when an error entry exists. -/
theorem execSeqLoop_halted_iff :
    ∀ (cmds : List CommandRequest) (i : Nat)
      (rs : List (CommandExecutionResult α)) (b : Bool),
      execSeqLoop sessions f dur sid cmds i = (rs, b) →
      (b = true ↔ ∃ r ∈ rs, r.status = CmdStatus.error) := by
  intro cmds
  induction cmds with
  | nil =>
    intro i rs b h
    simp only [execSeqLoop] at h
    cases h
    simp
  | cons cmd rest ih =>
    intro i rs b h
    simp only [execSeqLoop] at h
    cases hx : executeCommand sessions (f i)
        { sessionId := sid, command := cmd.command, selector := cmd.selector } with
    | error e =>
      rw [hx] at h
      cases h
      simp
    | ok v =>
      rw [hx] at h
      rcases hq : execSeqLoop sessions f dur sid rest (i + 1) with ⟨rs2, b2⟩
      rw [hq] at h
      cases h
      have IH := ih (i + 1) rs2 b2 hq
      simp only [List.mem_cons, exists_eq_or_imp]
      rw [IH]
      simp

end SequenceLemmas

/-- C1: for every non-empty request list on which executeCommandSequence
returns a SequenceResult, the result is index-aligned with the requests up to
the halt point; every entry before the last is a success and at most the last
entry is an error; no entries exist past the first failing request;
completedCount equals the number of success entries; totalCount equals the
original request count; halted holds iff an error entry exists; and
completedCount plus one-if-halted equals the number of result entries. -/
theorem claim_C1_executeMany {α : Type} (sessions : List (String × SessionData))
    (handlerOutcomes : Nat → Except String (Option α)) (dur : Nat → Nat)
    (executedAt : Nat) (sessionId : String) (commands : List CommandRequest)
    (resp : SequenceExecutionResponse α)
    (hrun : executeCommandSequence sessions handlerOutcomes dur executedAt
        sessionId commands = Except.ok resp)
    (hne : commands ≠ []) :
    resp.totalCount = commands.length
    ∧ resp.results.length ≤ commands.length
    ∧ resp.results.map (fun r => r.index) = List.range' 0 resp.results.length
    ∧ resp.results.map (fun r => r.command)
        = (commands.take resp.results.length).map (fun c => c.command)
    ∧ (resp.halted = false → resp.results.length = commands.length
        ∧ resp.results.map (fun r => r.status)
            = List.replicate commands.length CmdStatus.success)
    ∧ (resp.halted = true → 0 < resp.results.length
        ∧ resp.results.map (fun r => r.status)
            = List.replicate (resp.results.length - 1) CmdStatus.success
              ++ [CmdStatus.error])
    ∧ resp.completedCount
        = (resp.results.filter (fun r => r.status == CmdStatus.success)).length
    ∧ resp.completedCount + (if resp.halted then 1 else 0) = resp.results.length
    ∧ (resp.halted = true ↔ ∃ r ∈ resp.results, r.status = CmdStatus.error) := by
  unfold executeCommandSequence at hrun
  cases hg : getSession sessions sessionId with
  | error e =>
    rw [hg] at hrun
    cases hrun
  | ok s =>
    rw [hg] at hrun
    rcases hq : execSeqLoop sessions handlerOutcomes dur sessionId commands 0
      with ⟨rs, b⟩
    rw [hq] at hrun
    cases hrun
    obtain ⟨hstF, hstT⟩ :=
      execSeqLoop_status sessions handlerOutcomes dur sessionId commands 0 rs b hq
    have hidx :=
      execSeqLoop_map_index sessions handlerOutcomes dur sessionId commands 0 rs b hq
    have hcmd :=
      execSeqLoop_map_command sessions handlerOutcomes dur sessionId commands 0 rs b hq
    have hfil :=
      execSeqLoop_filter_length sessions handlerOutcomes dur sessionId commands 0 rs b hq
    have hiff :=
      execSeqLoop_halted_iff sessions handlerOutcomes dur sessionId commands 0 rs b hq
    have hlen : rs.length ≤ commands.length := by
      cases b with
      | false => exact Nat.le_of_eq (hstF rfl).1
      | true => exact (hstT rfl).1
    exact ⟨rfl, hlen, hidx, hcmd, hstF,
      fun hb => ⟨(hstT hb).2.1, (hstT hb).2.2⟩, rfl, hfil, hiff⟩

/-- Witness for C1 on the demo inputs: navigate succeeds, click fails, the
extract is never attempted; the scenario of section 8 of the specification. -/
theorem claim_C1_executeMany_witness :
    demoResp.totalCount = demoCommands.length
    ∧ demoResp.completedCount + (if demoResp.halted then 1 else 0)
        = demoResp.results.length
    ∧ (demoResp.halted = true ↔ ∃ r ∈ demoResp.results, r.status = CmdStatus.error) := by
  have h := claim_C1_executeMany demoSessions demoOutcomes (fun _ => 2) 99 "s1"
    demoCommands demoResp (by rfl) (by decide)
  exact ⟨h.1, h.2.2.2.2.2.2.2.1, h.2.2.2.2.2.2.2.2⟩

/-- C10: the HTTP boundary rejects an empty command array, while
executeCommandSequence itself, called with an empty array on a live session,
executes nothing and returns the total, well-defined result with an empty
result list, zero completed, zero total, and halted false. -/
theorem claim_C10_empty_sequence {α : Type} (sessions : List (String × SessionData))
    (handlerOutcomes : Nat → Except String (Option α)) (dur : Nat → Nat)
    (executedAt : Nat) (sessionId : String) (session : SessionData)
    (hlive : sessions.lookup sessionId = some session) :
    validateSequenceBody [] = Except.error "Command array cannot be empty"
    ∧ executeCommandSequence sessions handlerOutcomes dur executedAt sessionId []
        = Except.ok
            { results := [], completedCount := 0, totalCount := 0,
              halted := false, executedAt := executedAt } := by
  refine ⟨rfl, ?_⟩
  unfold executeCommandSequence getSession
  rw [hlive]
  rfl

/-- Witness for C10 on the demo registry. -/
theorem claim_C10_empty_sequence_witness :
    validateSequenceBody [] = Except.error "Command array cannot be empty"
    ∧ executeCommandSequence demoSessions demoOutcomes (fun _ => 2) 99 "s1" []
        = Except.ok
            { results := ([] : List (CommandExecutionResult Nat)),
              completedCount := 0, totalCount := 0,
              halted := false, executedAt := 99 } :=
  claim_C10_empty_sequence demoSessions demoOutcomes (fun _ => 2) 99 "s1"
    demoSession (by decide)

/-- Looking up a key in a list from which all entries with that key were
filtered out yields nothing. -/
theorem lookup_filter_ne {β : Type} (l : List (String × β)) (k : String) :
    (l.filter (fun kv => kv.1 ≠ k)).lookup k = none := by
  induction l with
  | nil => rfl
  | cons kv rest ih =>
    simp only [List.filter_cons]
    by_cases h : kv.1 = k
    · rw [if_neg (by simp [h])]
      exact ih
    · rw [if_pos (by simp [h])]
      simp only [List.lookup]
      have hb : (k == kv.1) = false := by
        simp [Ne.symm h]
      rw [hb]
      exact ih

/-- After any cleanupSession call, the id is gone from the registry. -/
theorem cleanupSession_lookup_none (st : ServerState) (o : CleanupOracles)
    (sessionId : String) :
    ((cleanupSession st o sessionId).1).sessions.lookup sessionId = none := by
  unfold cleanupSession
  cases h : st.sessions.lookup sessionId with
  | none => exact h
  | some session => exact lookup_filter_ne st.sessions sessionId

/-- cleanupSession on an id absent from the registry is a no-op with no
effects. -/
theorem cleanupSession_absent (st : ServerState) (o : CleanupOracles)
    (sessionId : String) (h : st.sessions.lookup sessionId = none) :
    cleanupSession st o sessionId = (st, []) := by
  unfold cleanupSession
  rw [h]

/-- C4: terminateSession (cleanupSession) is idempotent — after any first call,
a second call for the same id returns the state unchanged and performs no
cleanup effect (no context close, no directory deletion), for every choice of
filesystem/browser oracles on both calls. -/
theorem claim_C4_terminate_idempotent (st : ServerState)
    (o o2 : CleanupOracles) (sessionId : String) :
    cleanupSession (cleanupSession st o sessionId).1 o2 sessionId
      = ((cleanupSession st o sessionId).1, []) :=
  cleanupSession_absent _ o2 sessionId (cleanupSession_lookup_none st o sessionId)

/-- Every effect of the recording-finalization block is an artifact rename or a
logged (not propagated) finalization failure. -/
theorem finalizeRecordingEffects_shape (o : CleanupOracles) (dir sid : String) :
    ∀ e ∈ finalizeRecordingEffects o dir sid,
      (∃ src dst, e = CleanupEffect.renameArtifact src dst)
      ∨ e = CleanupEffect.logFinalizeError sid := by
  intro e he
  rcases hr : o.readdirResult with msg | files
  · simp only [finalizeRecordingEffects, hr, List.mem_singleton] at he
    exact Or.inr he
  · simp only [finalizeRecordingEffects, hr] at he
    rcases hf : files.find? (fun f => strEndsWith f ".webm") with _ | webmFile
    · simp only [hf] at he
      simp at he
    · simp only [hf] at he
      by_cases hw : webmFile ≠ "video.webm"
      · rw [if_pos hw] at he
        rcases List.mem_cons.mp he with he | he
        · exact Or.inl ⟨_, _, he⟩
        · rcases ho : o.renameOk with _ | _
          · rw [ho] at he
            simp only [Bool.false_eq_true, if_false, List.mem_singleton] at he
            exact Or.inr he
          · rw [ho] at he
            simp at he
      · rw [if_neg hw] at he
        simp at he

/-- C5: on the first terminate call for a live session the teardown effects
occur in exactly the order: cancel the expiry timer; close the automation
context with a close failure logged and not propagated; only then and only if
recording was enabled, finalize the artifact and notify the tracker; delete the
scratch directory with failure logged and not propagated; and finally remove
the registry entry — for every oracle, including failing close/readdir/rename/
delete, so the call never raises on steps 2-4 failing. -/
theorem claim_C5_teardown_order (st : ServerState) (o : CleanupOracles)
    (sessionId : String) (session : SessionData)
    (h : st.sessions.lookup sessionId = some session) :
    (cleanupSession st o sessionId).2
      = ([CleanupEffect.cancelTimer sessionId, CleanupEffect.closeContext sessionId]
          ++ (if o.closeOk then [] else [CleanupEffect.logCloseError sessionId])
          ++ (match session.recordingMetadata with
              | some md => finalizeRecordingEffects o md.filePath sessionId
                  ++ [CleanupEffect.notifyEnded sessionId]
              | none => [])
          ++ [CleanupEffect.removeDir session.userDataDir]
          ++ (if o.rmOk then [] else [CleanupEffect.logRemoveDirError sessionId]))
        ++ [CleanupEffect.removeFromRegistry sessionId]
    ∧ (cleanupSession st o sessionId).2.getLast?
        = some (CleanupEffect.removeFromRegistry sessionId)
    ∧ (∀ dir sid, ∀ e ∈ finalizeRecordingEffects o dir sid,
        (∃ src dst, e = CleanupEffect.renameArtifact src dst)
        ∨ e = CleanupEffect.logFinalizeError sid)
    ∧ ((cleanupSession st o sessionId).1).sessions.lookup sessionId = none := by
  have htrace : (cleanupSession st o sessionId).2
      = ([CleanupEffect.cancelTimer sessionId, CleanupEffect.closeContext sessionId]
          ++ (if o.closeOk then [] else [CleanupEffect.logCloseError sessionId])
          ++ (match session.recordingMetadata with
              | some md => finalizeRecordingEffects o md.filePath sessionId
                  ++ [CleanupEffect.notifyEnded sessionId]
              | none => [])
          ++ [CleanupEffect.removeDir session.userDataDir]
          ++ (if o.rmOk then [] else [CleanupEffect.logRemoveDirError sessionId]))
        ++ [CleanupEffect.removeFromRegistry sessionId] := by
    unfold cleanupSession
    rw [h]
    cases hm : session.recordingMetadata with
    | none => simp [hm]
    | some md => simp [hm]
  refine ⟨htrace, ?_, finalizeRecordingEffects_shape o, ?_⟩
  · rw [htrace]
    exact List.getLast?_concat _
  · exact cleanupSession_lookup_none st o sessionId

/-- Witness for C5 on the demo recording session, with a failing context close
and a failing directory deletion. -/
theorem claim_C5_teardown_order_witness :
    (cleanupSession demoRecState demoCleanupOracles "s1").2
      = ([CleanupEffect.cancelTimer "s1", CleanupEffect.closeContext "s1"]
          ++ (if demoCleanupOracles.closeOk then []
              else [CleanupEffect.logCloseError "s1"])
          ++ (match demoRecSession.recordingMetadata with
              | some md => finalizeRecordingEffects demoCleanupOracles md.filePath "s1"
                  ++ [CleanupEffect.notifyEnded "s1"]
              | none => [])
          ++ [CleanupEffect.removeDir demoRecSession.userDataDir]
          ++ (if demoCleanupOracles.rmOk then []
              else [CleanupEffect.logRemoveDirError "s1"]))
        ++ [CleanupEffect.removeFromRegistry "s1"]
    ∧ (cleanupSession demoRecState demoCleanupOracles "s1").2.getLast?
        = some (CleanupEffect.removeFromRegistry "s1")
    ∧ (∀ dir sid, ∀ e ∈ finalizeRecordingEffects demoCleanupOracles dir sid,
        (∃ src dst, e = CleanupEffect.renameArtifact src dst)
        ∨ e = CleanupEffect.logFinalizeError sid)
    ∧ ((cleanupSession demoRecState demoCleanupOracles "s1").1).sessions.lookup "s1"
        = none :=
  claim_C5_teardown_order demoRecState demoCleanupOracles "s1" demoRecSession
    (by decide)

/-- C6: a creation request arriving at or above the configured maximum fails
with MaxSessionsReachedError before any side effect — the registry is returned
unchanged, no context is launched, and no existing session is evicted — while a
request below the maximum passes the capacity check and appends the new session
without removing any existing entry. -/
theorem claim_C6_capacity (maxSessions : Nat) (st : ServerState)
    (opts : CreateSessionOptions) (sessionId : String) (now : Nat)
    (globalProxy : Option ProxyConfig) (contextPages : Nat) :
    (st.sessions.length ≥ maxSessions →
      createSession maxSessions st opts sessionId now globalProxy contextPages
        = (Except.error (CreateError.maxSessionsReached maxSessions), st, []))
    ∧ (st.sessions.length < maxSessions →
      ∃ sess st2,
        createSession maxSessions st opts sessionId now globalProxy contextPages
          = (Except.ok sess, st2,
             [CreateEffect.launchContext ("./user-data/" ++ sessionId)])
        ∧ st2.sessions = st.sessions ++ [(sessionId, sess)]) := by
  constructor
  · intro hge
    unfold createSession
    rw [if_pos hge]
  · intro hlt
    unfold createSession
    rw [if_neg (Nat.not_le.mpr hlt)]
    exact ⟨_, _, rfl, rfl⟩

/-- Witness for C6: with the one-session demo registry, a maximum of one
rejects creation unchanged, and a maximum of two accepts it. -/
theorem claim_C6_capacity_witness :
    (createSession 1 demoState demoOpts "s2" 5 none 1
       = (Except.error (CreateError.maxSessionsReached 1), demoState, []))
    ∧ ∃ sess st2,
        createSession 2 demoState demoOpts "s2" 5 none 1
          = (Except.ok sess, st2,
             [CreateEffect.launchContext ("./user-data/" ++ "s2")])
        ∧ st2.sessions = demoState.sessions ++ [("s2", sess)] :=
  ⟨(claim_C6_capacity 1 demoState demoOpts "s2" 5 none 1).1 (by decide),
   (claim_C6_capacity 2 demoState demoOpts "s2" 5 none 1).2 (by decide)⟩

/-- C7: effective-proxy resolution is the pure precedence function — a non-null
session override wins regardless of the global default, else the global default
applies, else no proxy — and every successfully created session carries exactly
the resolved effective proxy. -/
theorem claim_C7_proxy_precedence (globalDefault : Option ProxyConfig)
    (p : ProxyConfig) (maxSessions : Nat) (st : ServerState)
    (opts : CreateSessionOptions) (sessionId : String) (now : Nat)
    (contextPages : Nat) (sess : SessionData) (st2 : ServerState)
    (eff : List CreateEffect)
    (hok : createSession maxSessions st opts sessionId now globalDefault
        contextPages = (Except.ok sess, st2, eff)) :
    resolveEffectiveProxy (some p) globalDefault = some p
    ∧ resolveEffectiveProxy none globalDefault = globalDefault
    ∧ sess.proxyConfig = resolveEffectiveProxy opts.proxy globalDefault := by
  refine ⟨rfl, rfl, ?_⟩
  unfold createSession at hok
  by_cases h : st.sessions.length ≥ maxSessions
  · rw [if_pos h] at hok
    simp at hok
  · rw [if_neg h] at hok
    simp only [Prod.mk.injEq] at hok
    obtain ⟨h1, -, -⟩ := hok
    injection h1 with h1
    rw [← h1]

/-- Witness for C7: creating the demo session with no override under the demo
global proxy yields a session carrying that global proxy. -/
theorem claim_C7_proxy_precedence_witness :
    resolveEffectiveProxy (some demoProxy) (some demoProxy) = some demoProxy
    ∧ resolveEffectiveProxy none (some demoProxy) = some demoProxy
    ∧ demoProxySession.proxyConfig
        = resolveEffectiveProxy demoOpts.proxy (some demoProxy) :=
  claim_C7_proxy_precedence (some demoProxy) demoProxy 10 emptyState demoOpts
    "s1" 0 1 demoProxySession
    { sessions := [("s1", demoProxySession)], recordings := [] }
    [CreateEffect.launchContext "./user-data/s1"] (by rfl)

/-- C2 (code bug): at creation expiresAt equals createdAt plus ttl, and
resetSessionTTL — the repository's keep-alive primitive — would move
lastActivityAt and expiresAt forward as specified; but the command-execution
path never invokes it: a fully successful command at time 30000 against the
session created at time 0 with ttl 60000 leaves the registry state unchanged,
so expiresAt stays 60000 instead of the specified 90000. -/
theorem claim_C2_ttl_not_reset :
    createSession 10 emptyState demoOpts "s1" 0 none 1
      = (Except.ok demoSession, demoState,
         [CreateEffect.launchContext "./user-data/s1"])
    ∧ demoSession.expiresAt = demoSession.createdAt + demoSession.ttl
    ∧ (resetSessionTTL demoSession 30000).lastActivityAt = 30000
    ∧ (resetSessionTTL demoSession 30000).expiresAt = 30000 + demoSession.ttl
    ∧ (handleSingleCommand demoState (Except.ok (some 7))
         { sessionId := "s1", command := "title" }).1 = Except.ok (some 7)
    ∧ (handleSingleCommand demoState (Except.ok (some 7))
         { sessionId := "s1", command := "title" }).2 = demoState
    ∧ ((handleSingleCommand demoState (Except.ok (some 7))
         { sessionId := "s1", command := "title" }).2.sessions.lookup "s1").map
        (fun s => s.expiresAt) = some 60000
    ∧ (60000 : Nat) ≠ 30000 + demoSession.ttl := by
  refine ⟨by rfl, rfl, rfl, rfl, by rfl, rfl, by rfl, by decide⟩

/-- C3 (code bug): a command failing with the catch-all ExecutionError leaves
the session alive — the state after the failing call is unchanged and the
session is still retrievable — although the repository's own specification
(FR-021) requires automatic teardown on unrecoverable command failures. -/
theorem claim_C3_no_teardown_on_execution_error :
    (handleSingleCommand demoState
        (Except.error "Protocol error: target crashed" : Except String (Option Nat))
        { sessionId := "s1", command := "click", selector := some "#b" }).1
      = Except.error (CmdError.execution "Protocol error: target crashed")
    ∧ (handleSingleCommand demoState
        (Except.error "Protocol error: target crashed" : Except String (Option Nat))
        { sessionId := "s1", command := "click", selector := some "#b" }).2
      = demoState
    ∧ getSession ((handleSingleCommand demoState
        (Except.error "Protocol error: target crashed" : Except String (Option Nat))
        { sessionId := "s1", command := "click", selector := some "#b" }).2).sessions
        "s1" = Except.ok demoSession := by
  refine ⟨by rfl, rfl, by rfl⟩

/-- C9: one sweep run, assuming storage deletion succeeds, drops exactly the
tracked artifacts whose end-time is set and more than the one-hour retention
window in the past — deleting their storage — and leaves every other entry
tracked with its storage untouched, in order. -/
theorem claim_C9_sweep (recordings : List (String × RecordingEntry)) (now : Nat)
    (rmOk : String → Bool) (hrm : ∀ p, rmOk p = true) :
    (cleanupOldRecordings recordings now rmOk).1
      = recordings.filter (fun kv => !recordingDue now kv.2)
    ∧ (cleanupOldRecordings recordings now rmOk).2
      = (recordings.filter (fun kv => recordingDue now kv.2)).map
          (fun kv => kv.2.recordingPath)
    ∧ (∀ e : RecordingEntry, recordingDue now e = true
        ↔ ∃ t, e.endTime = some t ∧ t + ONE_HOUR_MS < now) := by
  refine ⟨?_, ?_, ?_⟩
  · induction recordings with
    | nil => rfl
    | cons kv rest ih =>
      simp only [cleanupOldRecordings, List.filter_cons]
      cases hd : recordingDue now kv.2 with
      | false => simp [hd, ih]
      | true => simp [hd, hrm kv.2.recordingPath, ih]
  · induction recordings with
    | nil => rfl
    | cons kv rest ih =>
      simp only [cleanupOldRecordings, List.filter_cons]
      cases hd : recordingDue now kv.2 with
      | false => simp [hd, ih]
      | true => simp [hd, hrm kv.2.recordingPath, ih]
  · intro e
    cases he : e.endTime with
    | none => simp [recordingDue, he]
    | some t => simp [recordingDue, he]

/-- Witness for C9: of three tracked artifacts — one ended long ago, one ended
recently, one not yet ended — a sweep removes exactly the first. -/
theorem claim_C9_sweep_witness :
    (cleanupOldRecordings
        [("a", { sessionId := "a", endTime := some 0, recordingPath := "pa" }),
         ("b", { sessionId := "b", endTime := none, recordingPath := "pb" }),
         ("c", { sessionId := "c", endTime := some 3000000, recordingPath := "pc" })]
        3700001 (fun _ => true)).1
      = ([("a", { sessionId := "a", endTime := some 0, recordingPath := "pa" }),
          ("b", { sessionId := "b", endTime := none, recordingPath := "pb" }),
          ("c", { sessionId := "c", endTime := some 3000000, recordingPath := "pc" })]).filter
          (fun kv => !recordingDue 3700001 kv.2)
    ∧ (cleanupOldRecordings
        [("a", { sessionId := "a", endTime := some 0, recordingPath := "pa" }),
         ("b", { sessionId := "b", endTime := none, recordingPath := "pb" }),
         ("c", { sessionId := "c", endTime := some 3000000, recordingPath := "pc" })]
        3700001 (fun _ => true)).2
      = List.map (fun kv => kv.2.recordingPath)
          (([("a", { sessionId := "a", endTime := some 0, recordingPath := "pa" }),
             ("b", { sessionId := "b", endTime := none, recordingPath := "pb" }),
             ("c", { sessionId := "c", endTime := some 3000000,
                     recordingPath := "pc" })]).filter
            (fun kv => recordingDue 3700001 kv.2))
    ∧ (∀ e : RecordingEntry, recordingDue 3700001 e = true
        ↔ ∃ t, e.endTime = some t ∧ t + ONE_HOUR_MS < 3700001) :=
  claim_C9_sweep
    [("a", { sessionId := "a", endTime := some 0, recordingPath := "pa" }),
     ("b", { sessionId := "b", endTime := none, recordingPath := "pb" }),
     ("c", { sessionId := "c", endTime := some 3000000, recordingPath := "pc" })]
    3700001 (fun _ => true) (fun _ => rfl)

/-- parseProxyUrl rejects an unsupported scheme. -/
theorem parseProxyUrl_not_supported (u : URLParts)
    (hp : stripFirst u.protocol ':' ∉ SUPPORTED_PROTOCOLS) :
    parseProxyUrl (some u)
      = Except.error
          (ProxyValidationErr.unsupportedProtocol (stripFirst u.protocol ':')) := by
  simp only [parseProxyUrl]
  rw [if_neg hp]

/-- parseProxyUrl rejects a missing hostname. -/
theorem parseProxyUrl_no_host (u : URLParts)
    (hp : stripFirst u.protocol ':' ∈ SUPPORTED_PROTOCOLS)
    (hh : u.hostname = "") :
    parseProxyUrl (some u) = Except.error ProxyValidationErr.hostnameRequired := by
  simp only [parseProxyUrl]
  rw [if_pos hp, if_neg (by simp [hh])]

/-- parseProxyUrl succeeds on a supported scheme with a present hostname,
producing exactly the assembled configuration. -/
theorem parseProxyUrl_ok (u : URLParts)
    (hp : stripFirst u.protocol ':' ∈ SUPPORTED_PROTOCOLS)
    (hh : u.hostname ≠ "") :
    parseProxyUrl (some u) = Except.ok (parsedConfig u) := by
  simp only [parseProxyUrl]
  rw [if_pos hp, if_pos hh]
  rfl

/-- C8 counterexample: the well-shaped proxy URL http&#58;//host&#58;0 has a
supported scheme, a present host, and complete (absent) credentials, yet the
parse-then-validate pipeline fails with a ProxyValidationError whose listed
reason is the port — a condition outside the enumerated failure set of the
claim, refuting that parsing/validation fails exactly on unsupported scheme,
missing host, or malformed credentials. -/
theorem claim_C8_counterexample :
    stripFirst portZeroURL.protocol ':' ∈ SUPPORTED_PROTOCOLS
    ∧ portZeroURL.hostname ≠ ""
    ∧ portZeroURL.username = "" ∧ portZeroURL.password = ""
    ∧ parseAndValidate (some portZeroURL)
        = Except.error (ProxyValidationErr.invalidConfig
            ["Port must be between 1 and 65535, got: 0"]) := by
  exact ⟨by decide, by decide, rfl, rfl, by rfl⟩

/-- Every scheme default port is a valid port. -/
theorem getDefaultPort_in_range (p : String) :
    1 ≤ getDefaultPort p ∧ getDefaultPort p ≤ 65535 := by
  unfold getDefaultPort
  by_cases h1 : p = "http" <;> by_cases h2 : p = "https" <;>
    by_cases h3 : p = "socks5" <;> simp [h1, h2, h3]

/-- With no explicit port, the parsed configuration takes the scheme default. -/
theorem parsedConfig_port_empty (u : URLParts) (h : u.port = "") :
    (parsedConfig u).port = getDefaultPort (stripFirst u.protocol ':') := by
  simp [parsedConfig, h]

/-- With an explicit port, the parsed configuration takes its numeric value. -/
theorem parsedConfig_port_explicit (u : URLParts) (h : u.port ≠ "") :
    (parsedConfig u).port = parsePort u.port := by
  simp [parsedConfig, h]

/-- The credential-presence flag of validateProxyConfig, applied to the
optional credential parseProxyUrl assembles from a URL component, tests the
component for non-emptiness. -/
theorem credFlag_decide (s : String) :
    decide (((if s = "" then (none : Option String) else some s).getD "") ≠ "")
      = decide (s ≠ "") := by
  by_cases h : s = "" <;> simp [h]

/-- validateProxyConfig on a configuration whose protocol and hostname checks
pass reduces to its port-range and credential checks. -/
theorem validateProxyConfig_parsed (c : ProxyConfig)
    (hprot : c.protocol ∈ SUPPORTED_PROTOCOLS)
    (hhost : c.hostname ≠ "") (htrim : strTrim c.hostname ≠ "") :
    validateProxyConfig c
      = (if 1 ≤ c.port ∧ c.port ≤ 65535 then []
         else ["Port must be between 1 and 65535, got: " ++ toString c.port])
        ++ (if decide (c.username.getD "" ≠ "") ≠ decide (c.password.getD "" ≠ "") then
              ["Proxy authentication incomplete: username and password must both be provided or both be omitted"]
            else []) := by
  unfold validateProxyConfig
  rw [if_pos hprot, if_neg (by simp [hhost, htrim])]
  simp

/-- With no separate credential or bypass fields, parseProxyRequest is exactly
parseProxyUrl on the server URL. -/
theorem parseProxyRequest_no_overrides (server : String) (parsed : Option URLParts) :
    parseProxyRequest { server := server, serverParsed := parsed }
      = parseProxyUrl parsed := by
  unfold parseProxyRequest
  cases h : parseProxyUrl parsed with
  | error e => rfl
  | ok c => simp

/-- Failure characterization of the parse-then-validate pipeline over
well-formed URL-constructor output: it errs exactly on an unsupported scheme, a
missing host, an explicit out-of-range port, or incomplete credentials. -/
theorem parseAndValidate_error_iff (u : URLParts) (hwf : WellFormedURL u) :
    (∃ e, parseAndValidate (some u) = Except.error e)
      ↔ (stripFirst u.protocol ':' ∉ SUPPORTED_PROTOCOLS
         ∨ u.hostname = ""
         ∨ (u.port ≠ "" ∧ parsePort u.port = 0)
         ∨ (u.username = "" ∧ u.password ≠ "")
         ∨ (u.username ≠ "" ∧ u.password = "")) := by
  by_cases hp : stripFirst u.protocol ':' ∈ SUPPORTED_PROTOCOLS
  case neg =>
    have h := parseProxyUrl_not_supported u hp
    constructor
    · intro _
      exact Or.inl hp
    · intro _
      exact ⟨ProxyValidationErr.unsupportedProtocol (stripFirst u.protocol ':'),
        by simp only [parseAndValidate, h]⟩
  case pos =>
    by_cases hh : u.hostname = ""
    · have h := parseProxyUrl_no_host u hp hh
      constructor
      · intro _
        exact Or.inr (Or.inl hh)
      · intro _
        exact ⟨ProxyValidationErr.hostnameRequired,
          by simp only [parseAndValidate, h]⟩
    · have hok := parseProxyUrl_ok u hp hh
      have hval := validateProxyConfig_parsed (parsedConfig u) hp hh (hwf.2 hh)
      have hcu : decide ((parsedConfig u).username.getD "" ≠ "")
          = decide (u.username ≠ "") := credFlag_decide u.username
      have hcp : decide ((parsedConfig u).password.getD "" ≠ "")
          = decide (u.password ≠ "") := credFlag_decide u.password
      by_cases hportOK : 1 ≤ (parsedConfig u).port ∧ (parsedConfig u).port ≤ 65535
      · by_cases hcred : decide (u.username ≠ "") = decide (u.password ≠ "")
        · -- no validation failure: pipeline succeeds, every disjunct is false
          have hlist : validateProxyConfig (parsedConfig u) = [] := by
            rw [hval, if_pos hportOK, if_neg (by rw [hcu, hcp]; simp [hcred])]
            rfl
          have hpv : parseAndValidate (some u) = Except.ok (parsedConfig u) := by
            simp only [parseAndValidate, hok, validateProxyConfigOrThrow, hlist]
          constructor
          · rintro ⟨e, he⟩
            rw [hpv] at he
            simp at he
          · intro hrhs
            exfalso
            rcases hrhs with h1 | h2 | ⟨h3, h3z⟩ | ⟨h4, h4p⟩ | ⟨h5, h5p⟩
            · exact h1 hp
            · exact hh h2
            · rw [parsedConfig_port_explicit u h3, h3z] at hportOK
              omega
            · simp [h4, h4p] at hcred
            · simp [h5, h5p] at hcred
        · -- incomplete credentials: pipeline fails with the auth reason
          have hlist : validateProxyConfig (parsedConfig u)
              = ["Proxy authentication incomplete: username and password must both be provided or both be omitted"] := by
            rw [hval, if_pos hportOK, if_pos (by rw [hcu, hcp]; exact hcred)]
            rfl
          have hpv : parseAndValidate (some u)
              = Except.error (ProxyValidationErr.invalidConfig
                  ["Proxy authentication incomplete: username and password must both be provided or both be omitted"]) := by
            simp only [parseAndValidate, hok, validateProxyConfigOrThrow, hlist]
          constructor
          · intro _
            by_cases hu : u.username = "" <;> by_cases hpw : u.password = ""
            · simp [hu, hpw] at hcred
            · exact Or.inr (Or.inr (Or.inr (Or.inl ⟨hu, hpw⟩)))
            · exact Or.inr (Or.inr (Or.inr (Or.inr ⟨hu, hpw⟩)))
            · simp [hu, hpw] at hcred
          · intro _
            exact ⟨_, hpv⟩
      · -- out-of-range explicit port: pipeline fails with the port reason
        have hlist : ∃ rest, validateProxyConfig (parsedConfig u)
            = ("Port must be between 1 and 65535, got: "
                ++ toString (parsedConfig u).port) :: rest := by
          rw [hval, if_neg hportOK]
          exact ⟨_, rfl⟩
        obtain ⟨rest, hlist⟩ := hlist
        have hpv : parseAndValidate (some u)
            = Except.error (ProxyValidationErr.invalidConfig
                (("Port must be between 1 and 65535, got: "
                  ++ toString (parsedConfig u).port) :: rest)) := by
          simp only [parseAndValidate, hok, validateProxyConfigOrThrow, hlist]
        have hpe : u.port ≠ "" ∧ parsePort u.port = 0 := by
          by_cases hport : u.port = ""
          · exfalso
            rw [parsedConfig_port_empty u hport] at hportOK
            exact hportOK (getDefaultPort_in_range _)
          · refine ⟨hport, ?_⟩
            rcases hwf.1 with hwf1 | ⟨-, hle⟩
            · exact absurd hwf1 hport
            · rw [parsedConfig_port_explicit u hport] at hportOK
              omega
        constructor
        · intro _
          exact Or.inr (Or.inr (Or.inl hpe))
        · intro _
          exact ⟨_, hpv⟩

/-- C8 amended: over well-formed WHATWG URL-constructor output, proxy
parsing/validation fails with a ProxyValidationError exactly on an unparsable
URL, an unsupported scheme, a missing host, an explicit out-of-range port
(port 0), or malformed credentials (username present without password or vice
versa, with the incomplete-authentication reason listed); an absent port takes
the scheme-specific default (80 for http, 443 for https, 1080 for socks5); and
a proxy-validation failure at session creation returns before createSession
runs, leaving the state unchanged — no session is created. -/
theorem claim_C8_parse_validate (u : URLParts) (hwf : WellFormedURL u) :
    parseAndValidate none = Except.error ProxyValidationErr.invalidUrl
    ∧ ((∃ e, parseAndValidate (some u) = Except.error e)
        ↔ (stripFirst u.protocol ':' ∉ SUPPORTED_PROTOCOLS
           ∨ u.hostname = ""
           ∨ (u.port ≠ "" ∧ parsePort u.port = 0)
           ∨ (u.username = "" ∧ u.password ≠ "")
           ∨ (u.username ≠ "" ∧ u.password = "")))
    ∧ (stripFirst u.protocol ':' ∈ SUPPORTED_PROTOCOLS → u.hostname ≠ "" →
        u.port = "" →
        parseProxyUrl (some u) = Except.ok (parsedConfig u)
        ∧ (parsedConfig u).port = getDefaultPort (stripFirst u.protocol ':'))
    ∧ getDefaultPort "http" = 80 ∧ getDefaultPort "https" = 443
    ∧ getDefaultPort "socks5" = 1080
    ∧ (∀ (maxSessions : Nat) (st : ServerState) (ttl : Nat) (recording : Bool)
         (server sid : String) (now : Nat) (gp : Option ProxyConfig)
         (pages : Nat) (e : ProxyValidationErr),
        ttl ≠ 0 → ¬(ttl < 60000 ∨ ttl > 14400000) → server ≠ "" →
        parseAndValidate (some u) = Except.error e →
        handleCreateSessionRoute maxSessions st ttl recording
          (some { server := server, serverParsed := some u }) sid now gp pages
          = (Except.error (RouteError.proxy e), st, [])) := by
  refine ⟨rfl, parseAndValidate_error_iff u hwf, ?_, rfl, rfl, rfl, ?_⟩
  · intro hp hh hport
    exact ⟨parseProxyUrl_ok u hp hh, parsedConfig_port_empty u hport⟩
  · intro maxSessions st ttl recording server sid now gp pages e h0 hbound hserver hpv
    have hreq : parseProxyRequest { server := server, serverParsed := some u }
        = parseProxyUrl (some u) := parseProxyRequest_no_overrides server (some u)
    unfold handleCreateSessionRoute
    rw [if_neg h0, if_neg hbound]
    cases hpu : parseProxyUrl (some u) with
    | error e2 =>
      have he2 : e2 = e := by
        simp only [parseAndValidate, hpu] at hpv
        exact (Except.error.inj hpv)
      subst he2
      simp only [hreq, hpu, if_neg hserver]
    | ok c =>
      cases hvt : validateProxyConfigOrThrow c with
      | error e2 =>
        have he2 : e2 = e := by
          simp only [parseAndValidate, hpu, hvt] at hpv
          exact (Except.error.inj hpv)
        subst he2
        simp only [hreq, hpu, hvt, if_neg hserver]
      | ok r =>
        simp only [parseAndValidate, hpu, hvt] at hpv
        exact Except.noConfusion hpv

/-- Witness for C8 on the scenario of the specification: the proxy URL
http&#58;//user@host&#58;8080 carries a username without a password, the
pipeline fails listing the incomplete-authentication reason, and session
creation returns with the registry unchanged. -/
theorem claim_C8_parse_validate_witness :
    (∃ e, parseAndValidate (some userOnlyURL) = Except.error e)
    ∧ handleCreateSessionRoute 10 emptyState 60000 false
        (some { server := "http://user@host:8080",
                serverParsed := some userOnlyURL }) "s1" 0 none 1
      = (Except.error (RouteError.proxy (ProxyValidationErr.invalidConfig
          ["Proxy authentication incomplete: username and password must both be provided or both be omitted"])),
         emptyState, []) := by
  have h := claim_C8_parse_validate userOnlyURL
    ⟨Or.inr ⟨by decide, by decide⟩, fun _ => by decide⟩
  constructor
  · exact h.2.1.mpr (Or.inr (Or.inr (Or.inr (Or.inr ⟨by decide, rfl⟩))))
  · exact h.2.2.2.2.2.2 10 emptyState 60000 false "http://user@host:8080" "s1" 0
      none 1 (ProxyValidationErr.invalidConfig
        ["Proxy authentication incomplete: username and password must both be provided or both be omitted"])
      (by decide) (by decide) (by decide) (by rfl)

end PlaywrightServer
